import Mathlib

/-!
Verification development for the fermah matchmaking core.

This file gives a shallow embedding of the resource model
(`crates/fermah-common/src/resource/`) and of the matchmaker database layer
(`crates/fermah-database/src/mm_proof_requests.rs`, `mm_operators.rs`), and
proves properties of the embedded operations.

Conventions of the embedding:
* `u64` / `U256` values are `Nat` with explicit bounds where overflow matters
  (`U256MOD = 2 ^ 256`, `checked_add` returning `Option`);
* Ethereum addresses, operator ids, request ids and opaque payloads (hash,
  payload, signature bytes) are `Nat`;
* timestamps are `Int` seconds; the global clock (`Utc::now` / `Database::now`)
  is passed as an explicit `now : Int` parameter;
* a SQL table is a `List` of rows; a SQL `UPDATE ... WHERE p` maps the row
  transformer over the list guarded by `p`, and returns the count of matching
  rows where the source inspects it; a `DELETE` filters the list;
* fallible operations return `Except String` or a `Bool` success flag next to
  the post-state.
-/

/-! ## Resource model: memory

`Memory` as used by `resource/gpu.rs` and `resource/mod.rs`: a byte size plus
a memory technology tag.  The `MemoryType` enum itself is referenced by those
files but its definition is absent from the snapshot; its variants are
reconstructed from the use sites (`DDR3`/`DDR4`/`DDR5` for RAM, `GDDR6` /
`GDDR6X` for VRAM), with the derived order following declaration order.  Only
`size` is ever inspected by the fulfillment predicate; the tag participates
only as the final tie-break of the derived lexicographic `Ord`.
-/

inductive MemoryType
  | DDR3
  | DDR4
  | DDR5
  | GDDR6
  | GDDR6X
deriving DecidableEq, Repr

def MemoryType.rank : MemoryType → Nat
  | .DDR3 => 0
  | .DDR4 => 1
  | .DDR5 => 2
  | .GDDR6 => 3
  | .GDDR6X => 4

structure Memory where
  size : Nat
  type : MemoryType
deriving DecidableEq, Repr

/-- Derived `Ord` of `Memory`: by `size`, then by the type tag. -/
def Memory.cmp (a b : Memory) : Ordering :=
  (compare a.size b.size).then (compare a.type.rank b.type.rank)
inductive GPUModel
  | RadeonProW6600x
  | IntelArcA770
  | GeForceRtx2080MaxQ
  | RadeonRxVega56
  | RadeonRx6800M
  | RadeonVegaFrontierEdition
  | GeForceRtx3060Laptop
  | Rtx1000AdaGenerationLaptop
  | RadeonRx6700M
  | GeForceGtx1070
  | RadeonProW6600m
  | RadeonRx6600M
  | QuadroRtx5000MaxQ
  | NvidiaTitanX
  | RadeonRx5600XT
  | RadeonRx6600S
  | RtxA2000_12gb
  | RtxA2000
  | GeForceRtx2080SuperMaxQ
  | GeForceGtx980Ti
  | GeForceRtx2070SuperMaxQ
  | RadeonTRx6850mXt
  | RadeonProWX8200
  | RadeonRx7600S
  | GeForceRtx2060
  | RadeonRxVega64
  | RadeonRx5700
  | GeForceRtx4050Laptop
  | RtxA3000_12gbLaptop
  | RadeonProVega64X
  | NvidiaA40
  | RadeonProW7500
  | GeForceGtx1070Ti
  | QuadroRtx5000Mobile
  | RadeonRx6700S
  | RadeonRx6650M
  | GeForceRtx2080Mobile
  | RadeonRx6600
  | QuadroP6000
  | QuadroK2200
  | QuadroK4200
  | RadeonProW5700
  | GeForceRtx3060_8GB
  | QuadroRtx4000
  | Rtx2000AdaGenerationLaptop
  | RtxA4000laptop
  | RadeonRx6800S
  | GeForceRtx3070Laptop
  | GeForceGtx1080
  | RadeonProVegaII
  | RadeonRx7700S
  | RadeonProW6600
  | Rtx3000AdaGenerationLaptop
  | GeForceRtx2060_12GB
  | MiracastdisplayportdriverV3
  | RadeonProVegaIIDuo
  | QuadroRtx5000
  | RtxA5000laptop
  | GeForceRtx2070
  | TeslaV100SXM2_16GB
  | RadeonRx7600
  | QuadroGP100
  | GeForceRtx3080Laptop
  | RadeonRx6600XT
  | GeForceRtx2060SUPER
  | RadeonRx5700XT50thAnniversary
  | RadeonRx5700XT
  | RadeonVII
  | TitanVCeoEdition
  | M60
  | P4
  | P40
  | AmpereA2
  | T4
  | A16
  | A10
  | A10G
  | GeForceRtx3060_12GB
  | RadeonRx6850mXt
  | RadeonRx6650XT
  | Rtx2000AdaGeneration
  | RtxA5500laptop
  | RadeonRx7600XT
  | RadeonProW5700X
  | RtxA4500laptop
  | GeForceRtx4060Laptop
  | A40_48Q
  | RadeonProW7600
  | GeForceRtx3070TiLaptop
  | GeForceRtx2070SUPER
  | NvidiaA10G
  | NvidiaTitanXp
  | RadeonRx6750GRE12GB
  | GeForceGtx1080Ti
  | QuadroRtx6000
  | GeForceRtx2080
  | RadeonRx6700
  | TitanXpCollectorsEdition
  | RtxA4000
  | QuadroRtx8000
  | GeForceRtx4060
  | GeForceRtx2080SUPER
  | Rtx3500AdaGenerationLaptop
  | GeForceRtx4070Laptop
  | RadeonProW6800
  | QuadroGV100
  | RadeonRx6700XT
  | TtitanV
  | GeForceRtx3080TiLaptop
  | TitanRtx
  | GeForceRtx3060Ti
  | RadeonRx6750GRE10GB
  | RadeonRx6750XT
  | RadeonProW7700
  | Rtx4000sffAdaGeneration
  | RtxA5500
  | Radeon610mRyzen9_7845hx
  | GeForceRtx2080Ti
  | RtxA4500
  | GridRtx6000_6Q
  | RadeonRx7900M
  | NvidiaA10
  | RadeonRx7700XT
  | RadeonRx6800
  | GeForceRtx3070
  | RtxA6000
  | RtxA5000
  | GeForceRtx4060Ti16GB
  | GeForceRtx4060Ti
  | Rtx4000AdaGenerationLaptop
  | GeForceRtx3070Ti
  | RadeonRx7800XT
  | Rtx5000AdaGenerationLaptop
  | Rtx5000AdaGeneration
  | RadeonRx6800XT
  | GeForceRtx3080
  | GeForceRtx4080Laptop
  | Rtx4000AdaGeneration
  | RadeonRx7900GRE
  | GeForceRtx3080_12GB
  | GeForceRtx3090
  | RadeonRx6900XT
  | GeForceRtx4070
  | GeForceRtx3080Ti
  | Rtx6000AdaGeneration
  | GeForceRtx4090Laptop
  | RadeonRx6950XT
  | RadeonRx7900XT
  | RadeonProW7800
  | RadeonProW7900
  | GeForceRtx3090Ti
  | Rtx4500AdaGeneration
  | GeForceRtx4070SUPER
  | RadeonRx7900XTX
  | L4
  | V100
  | V100S
  | GA100Ampere
  | A100
  | L40S
  | GeForceRtx4070TiSUPER
  | GeForceRtx4070Ti
  | GeForceRtx4080SUPER
  | GeForceRtx4080
  | GeForceRtx4090D
  | GeForceRtx4090
  | H100
deriving DecidableEq, Repr

def GPUModel.rank : GPUModel -> Nat
  | .RadeonProW6600x => 0
  | .IntelArcA770 => 1
  | .GeForceRtx2080MaxQ => 2
  | .RadeonRxVega56 => 3
  | .RadeonRx6800M => 4
  | .RadeonVegaFrontierEdition => 5
  | .GeForceRtx3060Laptop => 6
  | .Rtx1000AdaGenerationLaptop => 7
  | .RadeonRx6700M => 8
  | .GeForceGtx1070 => 9
  | .RadeonProW6600m => 10
  | .RadeonRx6600M => 11
  | .QuadroRtx5000MaxQ => 12
  | .NvidiaTitanX => 13
  | .RadeonRx5600XT => 14
  | .RadeonRx6600S => 15
  | .RtxA2000_12gb => 16
  | .RtxA2000 => 17
  | .GeForceRtx2080SuperMaxQ => 18
  | .GeForceGtx980Ti => 19
  | .GeForceRtx2070SuperMaxQ => 20
  | .RadeonTRx6850mXt => 21
  | .RadeonProWX8200 => 22
  | .RadeonRx7600S => 23
  | .GeForceRtx2060 => 24
  | .RadeonRxVega64 => 25
  | .RadeonRx5700 => 26
  | .GeForceRtx4050Laptop => 27
  | .RtxA3000_12gbLaptop => 28
  | .RadeonProVega64X => 29
  | .NvidiaA40 => 30
  | .RadeonProW7500 => 31
  | .GeForceGtx1070Ti => 32
  | .QuadroRtx5000Mobile => 33
  | .RadeonRx6700S => 34
  | .RadeonRx6650M => 35
  | .GeForceRtx2080Mobile => 36
  | .RadeonRx6600 => 37
  | .QuadroP6000 => 38
  | .QuadroK2200 => 39
  | .QuadroK4200 => 40
  | .RadeonProW5700 => 41
  | .GeForceRtx3060_8GB => 42
  | .QuadroRtx4000 => 43
  | .Rtx2000AdaGenerationLaptop => 44
  | .RtxA4000laptop => 45
  | .RadeonRx6800S => 46
  | .GeForceRtx3070Laptop => 47
  | .GeForceGtx1080 => 48
  | .RadeonProVegaII => 49
  | .RadeonRx7700S => 50
  | .RadeonProW6600 => 51
  | .Rtx3000AdaGenerationLaptop => 52
  | .GeForceRtx2060_12GB => 53
  | .MiracastdisplayportdriverV3 => 54
  | .RadeonProVegaIIDuo => 55
  | .QuadroRtx5000 => 56
  | .RtxA5000laptop => 57
  | .GeForceRtx2070 => 58
  | .TeslaV100SXM2_16GB => 59
  | .RadeonRx7600 => 60
  | .QuadroGP100 => 61
  | .GeForceRtx3080Laptop => 62
  | .RadeonRx6600XT => 63
  | .GeForceRtx2060SUPER => 64
  | .RadeonRx5700XT50thAnniversary => 65
  | .RadeonRx5700XT => 66
  | .RadeonVII => 67
  | .TitanVCeoEdition => 68
  | .M60 => 69
  | .P4 => 70
  | .P40 => 71
  | .AmpereA2 => 72
  | .T4 => 73
  | .A16 => 74
  | .A10 => 75
  | .A10G => 76
  | .GeForceRtx3060_12GB => 77
  | .RadeonRx6850mXt => 78
  | .RadeonRx6650XT => 79
  | .Rtx2000AdaGeneration => 80
  | .RtxA5500laptop => 81
  | .RadeonRx7600XT => 82
  | .RadeonProW5700X => 83
  | .RtxA4500laptop => 84
  | .GeForceRtx4060Laptop => 85
  | .A40_48Q => 86
  | .RadeonProW7600 => 87
  | .GeForceRtx3070TiLaptop => 88
  | .GeForceRtx2070SUPER => 89
  | .NvidiaA10G => 90
  | .NvidiaTitanXp => 91
  | .RadeonRx6750GRE12GB => 92
  | .GeForceGtx1080Ti => 93
  | .QuadroRtx6000 => 94
  | .GeForceRtx2080 => 95
  | .RadeonRx6700 => 96
  | .TitanXpCollectorsEdition => 97
  | .RtxA4000 => 98
  | .QuadroRtx8000 => 99
  | .GeForceRtx4060 => 100
  | .GeForceRtx2080SUPER => 101
  | .Rtx3500AdaGenerationLaptop => 102
  | .GeForceRtx4070Laptop => 103
  | .RadeonProW6800 => 104
  | .QuadroGV100 => 105
  | .RadeonRx6700XT => 106
  | .TtitanV => 107
  | .GeForceRtx3080TiLaptop => 108
  | .TitanRtx => 109
  | .GeForceRtx3060Ti => 110
  | .RadeonRx6750GRE10GB => 111
  | .RadeonRx6750XT => 112
  | .RadeonProW7700 => 113
  | .Rtx4000sffAdaGeneration => 114
  | .RtxA5500 => 115
  | .Radeon610mRyzen9_7845hx => 116
  | .GeForceRtx2080Ti => 117
  | .RtxA4500 => 118
  | .GridRtx6000_6Q => 119
  | .RadeonRx7900M => 120
  | .NvidiaA10 => 121
  | .RadeonRx7700XT => 122
  | .RadeonRx6800 => 123
  | .GeForceRtx3070 => 124
  | .RtxA6000 => 125
  | .RtxA5000 => 126
  | .GeForceRtx4060Ti16GB => 127
  | .GeForceRtx4060Ti => 128
  | .Rtx4000AdaGenerationLaptop => 129
  | .GeForceRtx3070Ti => 130
  | .RadeonRx7800XT => 131
  | .Rtx5000AdaGenerationLaptop => 132
  | .Rtx5000AdaGeneration => 133
  | .RadeonRx6800XT => 134
  | .GeForceRtx3080 => 135
  | .GeForceRtx4080Laptop => 136
  | .Rtx4000AdaGeneration => 137
  | .RadeonRx7900GRE => 138
  | .GeForceRtx3080_12GB => 139
  | .GeForceRtx3090 => 140
  | .RadeonRx6900XT => 141
  | .GeForceRtx4070 => 142
  | .GeForceRtx3080Ti => 143
  | .Rtx6000AdaGeneration => 144
  | .GeForceRtx4090Laptop => 145
  | .RadeonRx6950XT => 146
  | .RadeonRx7900XT => 147
  | .RadeonProW7800 => 148
  | .RadeonProW7900 => 149
  | .GeForceRtx3090Ti => 150
  | .Rtx4500AdaGeneration => 151
  | .GeForceRtx4070SUPER => 152
  | .RadeonRx7900XTX => 153
  | .L4 => 154
  | .V100 => 155
  | .V100S => 156
  | .GA100Ampere => 157
  | .A100 => 158
  | .L40S => 159
  | .GeForceRtx4070TiSUPER => 160
  | .GeForceRtx4070Ti => 161
  | .GeForceRtx4080SUPER => 162
  | .GeForceRtx4080 => 163
  | .GeForceRtx4090D => 164
  | .GeForceRtx4090 => 165
  | .H100 => 166

/-! ## Resource model: GPU (`resource/gpu.rs`)

`GPUModel.rank` is the ordinal position used by the derived Rust `Ord`
(declaration order).  `GPUModel.specs` is the fixed specs table: only
`GeForceRtx3060_12GB`, `GeForceRtx3060_8GB` and `GeForceRtx3060Ti` have bespoke
entries; every other named model falls to the catch-all arm.
-/

structure GPUSpecs where
  cores : Nat
  memory : Memory
  clockRate : Nat
deriving DecidableEq, Repr

def GPUModel.specs : GPUModel → GPUSpecs
  | .GeForceRtx3060_12GB =>
      { cores := 3584
        memory := { size := 12 * 1024 * 1024 * 1024, type := .GDDR6 }
        clockRate := 1320000000 }
  | .GeForceRtx3060_8GB =>
      { cores := 3584
        memory := { size := 8 * 1024 * 1024 * 1024, type := .GDDR6 }
        clockRate := 1320000000 }
  | .GeForceRtx3060Ti =>
      { cores := 4864
        memory := { size := 8 * 1024 * 1024 * 1024, type := .GDDR6X }
        clockRate := 1410000000 }
  | _ =>
      { cores := 4864
        memory := { size := 8 * 1024 * 1024 * 1024, type := .GDDR6X }
        clockRate := 1410000000 }

inductive GPU
  | Model (m : GPUModel)
  | Specs (s : GPUSpecs)
deriving DecidableEq, Repr

def GPU.specs : GPU → GPUSpecs
  | .Model m => m.specs
  | .Specs s => s

/-- `Ord for GPU`: two named models compare by their ordinal rank; any other
pair compares by specs — memory (size, then type), then cores, then clock. -/
def GPU.cmp (a b : GPU) : Ordering :=
  match a, b with
  | .Model m, .Model mOther => compare m.rank mOther.rank
  | _, _ =>
    ((Memory.cmp a.specs.memory b.specs.memory).then
        (compare a.specs.cores b.specs.cores)).then
      (compare a.specs.clockRate b.specs.clockRate)

/-- `impl Fulfillable<GPUModel> for GPU`: the advertised GPU fulfills a
required tier model iff its specs' VRAM size is at least the tier's. -/
def GPU.fulfillsModel (g : GPU) (other : GPUModel) : Bool :=
  decide (g.specs.memory.size ≥ other.specs.memory.size)

/-! ## Resource model: CPU (`resource/cpu.rs`) -/

inductive CPUModel
  | IntelI3
  | Ryzen3
  | IntelI5
  | Ryzen5
  | IntelI7
  | Ryzen7
  | IntelI9
  | IntelXeon
  | Threadripper
  | EPYC
deriving DecidableEq, Repr

structure CPUSpecs where
  cores : Nat
  clockRate : Nat
deriving DecidableEq, Repr

def CPUModel.specs : CPUModel → CPUSpecs
  | .Ryzen7 => { cores := 8, clockRate := 3800000000 }
  | _ => { cores := 8, clockRate := 3800000000 }

inductive CPU
  | Model (m : CPUModel)
  | Specs (s : CPUSpecs)
deriving DecidableEq, Repr

def CPU.specs : CPU → CPUSpecs
  | .Model m => m.specs
  | .Specs s => s

/-! ## Resource model: `Resource`, `ResourceRequirement` and `fulfills` -/

structure Resource where
  ram : Memory
  ssd : Memory
  gpus : List GPU
  cpu : CPU
deriving DecidableEq, Repr

structure ResourceRequirement where
  minVram : Option Nat
  minRam : Option Nat
  minSsd : Option Nat
  minGpu : List GPUModel
  minCpuCores : Option Nat
deriving DecidableEq, Repr

/-- Inner loop of the GPU matching in `Resource::fulfills`: scan the
enumerated GPU list in order, skip indices already claimed, and return the
index of the first GPU satisfying `pred`.  Mirrors
`for (i, gpu) in self.gpus.iter().enumerate() { ... continue ... break }`. -/
def firstUnclaimedFit (pred : GPU → Bool) (claimed : List Nat) :
    List (Nat × GPU) → Option Nat
  | [] => none
  | (i, g) :: rest =>
    if claimed.contains i then firstUnclaimedFit pred claimed rest
    else if pred g then some i
    else firstUnclaimedFit pred claimed rest

/-- Outer loop of the GPU matching: for each required tier, in requirement
order, append the first-fit index (if any) to the claimed list
(`fulfilled_gpu_is.push(i)`).  The per-pair predicate `pred` is the trait
call `gpu.fulfills(gpu_req)`. -/
def claimGpus (pred : GPU → GPUModel → Bool) (gpus : List GPU)
    (claimed : List Nat) : List GPUModel → List Nat
  | [] => claimed
  | tier :: rest =>
    match firstUnclaimedFit (fun g => pred g tier) claimed gpus.enum with
    | some i => claimGpus pred gpus (claimed ++ [i]) rest
    | none => claimGpus pred gpus claimed rest

/-- `impl Fulfillable<ResourceRequirement> for Resource` — fail fast on the
four minimums (the `min_vram` floor quantifies over every advertised GPU),
then first-fit match the required tiers and demand that the number of claimed
GPUs equals the number of required tiers. -/
def Resource.fulfills (res : Resource) (req : ResourceRequirement) : Bool :=
  if (match req.minRam with
      | some minRam => decide (res.ram.size < minRam)
      | none => false) then false
  else if (match req.minSsd with
      | some minSsd => decide (res.ssd.size < minSsd)
      | none => false) then false
  else if (match req.minCpuCores with
      | some minCpuCores => decide (res.cpu.specs.cores < minCpuCores)
      | none => false) then false
  else if (match req.minVram with
      | some minVram => res.gpus.any (fun g => decide (g.specs.memory.size < minVram))
      | none => false) then false
  else
    (claimGpus GPU.fulfillsModel res.gpus [] req.minGpu).length = req.minGpu.length

/-! ## Proof-request store (`fermah-database`)

Status tags (`models::PrStatus`), payment tags (`models::PrPayment`), the
payload-carrying `ProofStatus` (`fermah-common/src/proof/status.rs`) and the
`mm_proof_requests` / `mm_operators` rows of `schema.rs`.
-/

inductive PrStatus
  | Created
  | Accepted
  | Cancelled
  | Rejected
  | Assigned
  | AcknowledgedAssignment
  | ProofBeingTested
  | Proven
deriving DecidableEq, Repr

inductive PrPayment
  | Nothing
  | ToReserve
  | Reserved
  | ReadyToPay
  | Paid
  | Refund
deriving DecidableEq, Repr

/-- `fermah_common::proof::Proof`: an opaque proof byte vector plus the
prover's address. -/
structure ProofData where
  proof : List Nat
  prover : Nat
deriving DecidableEq, Repr

inductive ProofStatus
  | Created
  | Accepted
  | Cancelled
  | Rejected (reason : String)
  | Assigned (op : Nat)
  | AcknowledgedAssignment (op : Nat)
  | ProofBeingTested (p : ProofData)
  | Proven (p : ProofData)
deriving DecidableEq, Repr

/-- `impl From<ProofStatus> for PrStatus` (models.rs): forget the payload. -/
def PrStatus.fromProofStatus : ProofStatus → PrStatus
  | .Created => .Created
  | .Accepted => .Accepted
  | .Cancelled => .Cancelled
  | .Rejected _ => .Rejected
  | .Assigned _ => .Assigned
  | .AcknowledgedAssignment _ => .AcknowledgedAssignment
  | .ProofBeingTested _ => .ProofBeingTested
  | .Proven _ => .Proven

/-- `U256` arithmetic: values live below `2 ^ 256`. -/
def U256MOD : Nat := 2 ^ 256

/-- `U256::max_value()`. -/
def U256MAX : Nat := U256MOD - 1

/-- `U256::checked_add`. -/
def u256CheckedAdd (a b : Nat) : Option Nat :=
  if a + b < U256MOD then some (a + b) else none

/-- One row of the `mm_proof_requests` table (schema.rs).  `hash`, `payload`
and `signature` are opaque byte blobs modelled as `Nat`. -/
structure MmProofRequest where
  id : Nat
  assigned : Option Nat
  lastStatusUpdate : Int
  payment : PrPayment
  amount : Option Nat
  hash : Nat
  publicKey : Nat
  payload : Nat
  signature : Nat
  requester : Option Nat
  status : PrStatus
  rejectionMessage : Option String
  operatorId : Option Nat
  proof : Option ProofData
deriving DecidableEq, Repr

/-- One row of the `mm_operators` table (schema.rs).  The advertised
`resource` blob is kept as a `Resource` value (it is stored bincode-encoded
and always decoded back on read). -/
structure MmOperator where
  id : Nat
  lastInteraction : Int
  resource : Resource
  reputation : Int
  online : Bool
  lastAssignment : Int
deriving DecidableEq, Repr

/-- The matchmaker database state: one list of rows per table. -/
structure Db where
  mmProofRequests : List MmProofRequest
  mmOperators : List MmOperator
deriving DecidableEq, Repr

/-! ## Operator registry (`mm_operators.rs`) -/

/-- `OperatorInfo::is_online`: the graceful-exit flag is set and the last
heartbeat is under three whole minutes old (`chrono` truncates the duration
toward zero, hence `Int.tdiv`). -/
def isOnline (now : Int) (o : MmOperator) : Bool :=
  o.online && decide ((now - o.lastInteraction).tdiv 60 < 3)

/-- `Database::unregister_operator_from_p2p`: `DELETE FROM mm_operators WHERE
id = operator_id`. -/
def unregisterOperatorFromP2p (operatorId : Nat) (db : Db) : Db :=
  { db with mmOperators := db.mmOperators.filter (fun o => !(o.id == operatorId)) }

/-- `Database::get_operator`: first row with the given id, if any. -/
def getOperator (operatorId : Nat) (db : Db) : Option MmOperator :=
  db.mmOperators.find? (fun o => o.id == operatorId)

/-- `Database::set_last_assignment`: `UPDATE mm_operators SET last_assignment
= now() WHERE id = oid`. -/
def setLastAssignment (now : Int) (oid : Nat) (db : Db) : Db :=
  { db with
    mmOperators := db.mmOperators.map (fun o =>
      if o.id = oid then { o with lastAssignment := now } else o) }

/-! ## Proof-request status machine (`mm_proof_requests.rs`) -/

/-- Row-level effect of `Database::set_proof_request_status`: each target
status guards on the current stored tag (the SQL `WHERE` clause) and writes
the new tag, the timestamp, and the target's payload column. -/
def statusUpdateRow (now : Int) (prId : Nat) (target : ProofStatus)
    (r : MmProofRequest) : MmProofRequest :=
  match target with
  | .Created => r
  | .Accepted =>
    if r.status = .Created ∧ r.id = prId then
      { r with lastStatusUpdate := now, status := .Accepted }
    else r
  | .Cancelled =>
    if r.status = .Created ∧ r.id = prId then
      { r with lastStatusUpdate := now, status := .Cancelled }
    else r
  | .Rejected reason =>
    if (r.status = .Created ∨ r.status = .AcknowledgedAssignment ∨
        r.status = .ProofBeingTested) ∧ r.id = prId then
      { r with lastStatusUpdate := now, status := .Rejected,
               rejectionMessage := some reason }
    else r
  | .Assigned oid =>
    if r.status = .Accepted ∧ r.id = prId then
      { r with lastStatusUpdate := now, status := .Assigned,
               operatorId := some oid }
    else r
  | .AcknowledgedAssignment oid =>
    if r.status = .Assigned ∧ r.id = prId then
      { r with lastStatusUpdate := now, status := .AcknowledgedAssignment,
               operatorId := some oid }
    else r
  | .ProofBeingTested p =>
    if r.status = .AcknowledgedAssignment ∧ r.id = prId then
      { r with lastStatusUpdate := now, status := .ProofBeingTested,
               proof := some p }
    else r
  | .Proven p =>
    if r.status = .ProofBeingTested ∧ r.id = prId then
      { r with lastStatusUpdate := now, status := .Proven, proof := some p }
    else r

/-- `Database::set_proof_request_status`: apply the guarded row update to the
table; the `Assigned(oid)` arm additionally calls `set_last_assignment` on the
operator table, unconditionally on whether any request row matched.  The
function itself always returns `Ok(())` (a guard miss is only logged). -/
def setProofRequestStatus (now : Int) (prId : Nat) (target : ProofStatus)
    (db : Db) : Db :=
  let db1 : Db :=
    { db with
      mmProofRequests := db.mmProofRequests.map (statusUpdateRow now prId target) }
  match target with
  | .Assigned oid => setLastAssignment now oid db1
  | _ => db1

/-! ## Availability, the guarded payment edge, and payment aggregation -/

/-- Subquery of `Database::available_operators`: operator ids of requests
whose status is `Assigned` or `AcknowledgedAssignment` and whose
`operator_id` is non-null. -/
def occupiedOperatorIds (db : Db) : List Nat :=
  ((db.mmProofRequests.filter (fun r =>
      (r.status == .Assigned || r.status == .AcknowledgedAssignment) &&
      r.operatorId.isSome)).map (fun r => r.operatorId.getD 0))

/-- `Database::available_operators`: registered operators not named by the
occupied subquery, restricted to those whose `is_online()` holds. -/
def availableOperators (now : Int) (db : Db) : List MmOperator :=
  ((db.mmOperators.filter (fun o =>
      !((occupiedOperatorIds db).contains o.id))).filter (fun o => isOnline now o))

/-- `Database::set_payment_to_ready`: `UPDATE ... SET last_status_update,
payment = ReadyToPay WHERE id = pr_id AND payment = Reserved`; the call bails
with an error unless exactly one row was updated.  Returned as the post-state
paired with a success flag. -/
def setPaymentToReady (now : Int) (prId : Nat) (db : Db) : Db × Bool :=
  let n := db.mmProofRequests.countP (fun r =>
    r.id == prId && r.payment == PrPayment.Reserved)
  let requests := db.mmProofRequests.map (fun r =>
    if r.id = prId ∧ r.payment = PrPayment.Reserved then
      { r with lastStatusUpdate := now, payment := PrPayment.ReadyToPay }
    else r)
  ({ db with mmProofRequests := requests }, n == 1)

/-- Row selection of `Database::get_ready_to_pay_proof_requests_for_many`:
`ReadyToPay` rows with non-null `assigned`, `requester` and `amount`, projected
to `(assigned, requester, amount, id)` (the unwraps are guarded by the
`is_not_null` filters). -/
def readyToPayRowsForMany (db : Db) : List (Nat × Nat × Nat × Nat) :=
  ((db.mmProofRequests.filter (fun r =>
      r.payment == PrPayment.ReadyToPay && r.assigned.isSome &&
      r.requester.isSome && r.amount.isSome)).map (fun r =>
    (r.assigned.getD 0, r.requester.getD 0, r.amount.getD 0, r.id)))

/-- Association-list read of the nested `HashMap`s. -/
def assocFind (key : Nat) : List (Nat × α) → Option α
  | [] => none
  | (k, v) :: rest => if k = key then some v else assocFind key rest

/-- Aggregation loop of `get_ready_to_pay_proof_requests_for_many` over the
selected rows.  Note the faithful rendering of the source: when the
(prover, requester) pair is already present, `checked_add` is only *tested*
for overflow (`bail!("Overflow occured")`) — its result is discarded and the
stored amount is left as it was (the `// todo: finish it` branch). -/
def aggregateForMany :
    List (Nat × Nat × Nat × Nat) → List (Nat × List (Nat × Nat)) → List Nat →
    Except String (List (Nat × List (Nat × Nat)) × List Nat)
  | [], payments, toBePaid => .ok (payments, toBePaid)
  | (prover, requester, amount, prId) :: rest, payments, toBePaid =>
    match assocFind prover payments with
    | some p =>
      match assocFind requester p with
      | some toPay =>
        if (u256CheckedAdd toPay amount).isNone then .error "Overflow occured"
        else aggregateForMany rest payments (toBePaid ++ [prId])
      | none =>
        aggregateForMany rest
          (payments.map (fun kv =>
            if kv.1 = prover then (kv.1, kv.2 ++ [(requester, amount)]) else kv))
          (toBePaid ++ [prId])
    | none =>
      aggregateForMany rest (payments ++ [(prover, [(requester, amount)])])
        (toBePaid ++ [prId])

/-- `Database::get_ready_to_pay_proof_requests_for_many`. -/
def getReadyToPayProofRequestsForMany (db : Db) :
    Except String (List (Nat × List (Nat × Nat)) × List Nat) :=
  aggregateForMany (readyToPayRowsForMany db) [] []

/-- Row selection of `Database::non_refundable_amount`: the `amount` column of
rows whose `public_key` is the requester and whose payment is `ReadyToPay` or
`Reserved` (with non-null amount). -/
def nonRefundableRows (proofRequester : Nat) (db : Db) : List (Option Nat) :=
  ((db.mmProofRequests.filter (fun r =>
      r.publicKey == proofRequester &&
      (r.payment == PrPayment.ReadyToPay || r.payment == PrPayment.Reserved) &&
      r.amount.isSome)).map (fun r => r.amount))

/-- `Database::non_refundable_amount`: fold the amounts with `checked_add`,
substituting `U256::max_value()` when an addition overflows; the call itself
always succeeds. -/
def nonRefundableAmount (proofRequester : Nat) (db : Db) : Except String Nat :=
  .ok ((nonRefundableRows proofRequester db).foldl
    (fun acc a =>
      match u256CheckedAdd acc (a.getD 0) with
      | some s => s
      | none => U256MAX) 0)

/-! ## Specification-side rendering of §4.1 (for the fulfillment claims)

`specFulfills` states the fulfillment algorithm the way the specification
words it (all minimums hold, first-fit match claims one distinct GPU per
tier), parameterized by the per-pair fit predicate so that the claimed
rank-based predicate and the code's VRAM-based predicate can be compared.
-/

/-- One first-fit step as the spec words it: the first GPU of the advertised
list, in order, that is not already claimed and fits. -/
def specClaimStep (fits : GPU → Bool) (gpus : List GPU) (claimed : List Nat) :
    Option Nat :=
  (gpus.enum.find? (fun ig => !(claimed.contains ig.1) && fits ig.2)).map
    (fun ig => ig.1)

/-- First-fit over the required tiers, in requirement order. -/
def specClaimTiers (fits : GPU → GPUModel → Bool) (gpus : List GPU)
    (claimed : List Nat) : List GPUModel → List Nat
  | [] => claimed
  | tier :: rest =>
    match specClaimStep (fun g => fits g tier) gpus claimed with
    | some i => specClaimTiers fits gpus (claimed ++ [i]) rest
    | none => specClaimTiers fits gpus claimed rest

/-- The fulfillment predicate as the specification words it. -/
def specFulfills (fits : GPU → GPUModel → Bool) (res : Resource)
    (req : ResourceRequirement) : Bool :=
  req.minRam.all (fun m => decide (m ≤ res.ram.size)) &&
  req.minSsd.all (fun m => decide (m ≤ res.ssd.size)) &&
  req.minCpuCores.all (fun m => decide (m ≤ res.cpu.specs.cores)) &&
  req.minVram.all (fun m => res.gpus.all (fun g => decide (m ≤ g.specs.memory.size))) &&
  decide ((specClaimTiers fits res.gpus [] req.minGpu).length = req.minGpu.length)

/-- The claimed per-pair predicate: the advertised GPU's ordinal rank (under
the `GPU` total order) is at least the required tier's. -/
def rankFits (g : GPU) (tier : GPUModel) : Bool :=
  !(GPU.cmp g (GPU.Model tier) == Ordering.lt)

/-- The per-pair predicate the code uses: advertised VRAM at least the tier
model's VRAM. -/
def vramFits (g : GPU) (tier : GPUModel) : Bool :=
  decide (tier.specs.memory.size ≤ g.specs.memory.size)

theorem firstUnclaimedFit_eq_find (pred : GPU → Bool) (claimed : List Nat)
    (pairs : List (Nat × GPU)) :
    firstUnclaimedFit pred claimed pairs =
      (pairs.find? (fun ig => !(claimed.contains ig.1) && pred ig.2)).map
        (fun ig => ig.1) := by
  induction pairs with
  | nil => rfl
  | cons hd tl ih =>
    rcases hd with ⟨i, g⟩
    have e : firstUnclaimedFit pred claimed ((i, g) :: tl) =
        if claimed.contains i then firstUnclaimedFit pred claimed tl
        else if pred g then some i else firstUnclaimedFit pred claimed tl := rfl
    by_cases hc : claimed.contains i = true
    · rw [e, if_pos hc, List.find?_cons_of_neg _ (by simp only [hc, Bool.not_true, Bool.false_and]; exact Bool.false_ne_true)]
      exact ih
    · have hc2 : claimed.contains i = false := by
        cases h : claimed.contains i
        · rfl
        · exact absurd h hc
      by_cases hp : pred g = true
      · rw [e, if_neg hc, if_pos hp,
          List.find?_cons_of_pos _ (by simp only [hc2, Bool.not_false, Bool.true_and]; exact hp)]
        rfl
      · have hp2 : pred g = false := by
          cases h : pred g
          · rfl
          · exact absurd h hp
        rw [e, if_neg hc, if_neg hp,
          List.find?_cons_of_neg _ (by simp only [hc2, Bool.not_false, Bool.true_and, hp2]; exact Bool.false_ne_true)]
        exact ih

theorem claimGpus_eq_specClaimTiers (pred : GPU → GPUModel → Bool)
    (gpus : List GPU) (tiers : List GPUModel) :
    ∀ claimed, claimGpus pred gpus claimed tiers =
      specClaimTiers pred gpus claimed tiers := by
  induction tiers with
  | nil => intro claimed; rfl
  | cons tier rest ih =>
    intro claimed
    show (match firstUnclaimedFit (fun g => pred g tier) claimed gpus.enum with
      | some i => claimGpus pred gpus (claimed ++ [i]) rest
      | none => claimGpus pred gpus claimed rest) = _
    rw [firstUnclaimedFit_eq_find]
    show _ = (match specClaimStep (fun g => pred g tier) gpus claimed with
      | some i => specClaimTiers pred gpus (claimed ++ [i]) rest
      | none => specClaimTiers pred gpus claimed rest)
    unfold specClaimStep
    cases (gpus.enum.find? fun ig => !claimed.contains ig.1 && pred ig.2 tier) with
    | none => exact ih claimed
    | some ig => exact ih (claimed ++ [ig.1])

theorem guard_opt_lt (o : Option Nat) (x : Nat) :
    (match o with
      | some m => decide (x < m)
      | none => false) = !(o.all (fun m => decide (m ≤ x))) := by
  cases o with
  | none => rfl
  | some m =>
    show decide (x < m) = !(decide (m ≤ x))
    by_cases h : x < m
    · simp [h, Nat.not_le.mpr h]
    · simp [h, Nat.le_of_not_lt h]

theorem guard_vram_lt (o : Option Nat) (gpus : List GPU) :
    (match o with
      | some m => gpus.any (fun g => decide (g.specs.memory.size < m))
      | none => false) =
    !(o.all (fun m => gpus.all (fun g => decide (m ≤ g.specs.memory.size)))) := by
  cases o with
  | none => rfl
  | some m =>
    show gpus.any _ = !(gpus.all _)
    rw [Bool.eq_iff_iff]
    simp only [List.any_eq_true, List.all_eq_true, Bool.not_eq_true',
      List.all_eq_false, decide_eq_true_eq, decide_eq_false_iff_not]
    constructor
    · rintro ⟨g, hg, hlt⟩; exact ⟨g, hg, Nat.not_le.mpr hlt⟩
    · rintro ⟨g, hg, hnle⟩; exact ⟨g, hg, Nat.not_le.mp hnle⟩

theorem ifchain_eq_and (a b c d e : Bool) :
    (if (!a) = true then false
     else if (!b) = true then false
     else if (!c) = true then false
     else if (!d) = true then false
     else e) = (a && b && c && d && e) := by
  cases a <;> cases b <;> cases c <;> cases d <;> cases e <;> rfl

theorem firstUnclaimedFit_some_unclaimed (pred : GPU → Bool) (claimed : List Nat)
    (pairs : List (Nat × GPU)) (i : Nat)
    (h : firstUnclaimedFit pred claimed pairs = some i) : i ∉ claimed := by
  rw [firstUnclaimedFit_eq_find] at h
  rcases Option.map_eq_some'.mp h with ⟨ig, hfind, hig⟩
  have hp := List.find?_some hfind
  rw [Bool.and_eq_true, Bool.not_eq_true'] at hp
  have : ig.1 ∉ claimed := by simpa using hp.1
  rw [hig] at this
  exact this

theorem claimGpus_nodup_from (pred : GPU → GPUModel → Bool) (gpus : List GPU)
    (tiers : List GPUModel) :
    ∀ claimed, claimed.Nodup → (claimGpus pred gpus claimed tiers).Nodup := by
  induction tiers with
  | nil => intro claimed h; exact h
  | cons tier rest ih =>
    intro claimed h
    show (match firstUnclaimedFit (fun g => pred g tier) claimed gpus.enum with
      | some i => claimGpus pred gpus (claimed ++ [i]) rest
      | none => claimGpus pred gpus claimed rest).Nodup
    cases hf : firstUnclaimedFit (fun g => pred g tier) claimed gpus.enum with
    | none => exact ih claimed h
    | some i =>
      refine ih (claimed ++ [i]) ?_
      have hni := firstUnclaimedFit_some_unclaimed _ _ _ _ hf
      simp [List.nodup_append]
      exact ⟨h, hni⟩

theorem vramFits_eq_fulfillsModel : vramFits = GPU.fulfillsModel := by
  funext g t
  rfl

theorem fulfills_eq_specFulfills_vram (res : Resource) (req : ResourceRequirement) :
    Resource.fulfills res req = specFulfills vramFits res req := by
  unfold Resource.fulfills specFulfills
  rw [guard_opt_lt req.minRam res.ram.size, guard_opt_lt req.minSsd res.ssd.size,
    guard_opt_lt req.minCpuCores res.cpu.specs.cores, guard_vram_lt req.minVram res.gpus,
    ifchain_eq_and, claimGpus_eq_specClaimTiers, vramFits_eq_fulfillsModel]

theorem fulfills_false_of_claim_count_ne (res : Resource) (req : ResourceRequirement)
    (h : (claimGpus GPU.fulfillsModel res.gpus [] req.minGpu).length ≠ req.minGpu.length) :
    Resource.fulfills res req = false := by
  unfold Resource.fulfills
  split
  · rfl
  · split
    · rfl
    · split
      · rfl
      · split
        · rfl
        · simp [h]

/-- Concrete input refuting the rank-based reading of the GPU match: one
advertised `GeForceRtx3060_8GB` (ordinal rank 42) against one required tier
`H100` (ordinal rank 166, but 8 GiB VRAM under the catch-all specs entry). -/
def gpuRankCexRes : Resource :=
  { ram := { size := 0, type := .DDR4 }
    ssd := { size := 0, type := .DDR4 }
    gpus := [GPU.Model .GeForceRtx3060_8GB]
    cpu := .Model .Ryzen7 }

def gpuRankCexReq : ResourceRequirement :=
  { minVram := none, minRam := none, minSsd := none,
    minGpu := [.H100], minCpuCores := none }

/-- C3 counterexample: `Resource::fulfills` accepts a GPU of *lower* ordinal
rank than the required tier (it compares only specs VRAM sizes), so the
claimed rank-based first-fit — under which no GPU would be claimable here and
fulfillment would fail — disagrees with the code at this input. -/
theorem fulfills_gpu_rank_claim_refuted :
    Resource.fulfills gpuRankCexRes gpuRankCexReq = true ∧
    specFulfills rankFits gpuRankCexRes gpuRankCexReq = false ∧
    GPU.cmp (GPU.Model .GeForceRtx3060_8GB) (GPU.Model .H100) = Ordering.lt := by
  refine ⟨by decide, by decide, by decide⟩

/-- C3 (amended): the GPU part of `Resource::fulfills` is a first-fit
bipartite match whose per-pair predicate compares specs VRAM sizes (not
ordinal ranks): the code equals the spec-worded algorithm instantiated with
the VRAM predicate, each required tier consumes a distinct physical GPU, and
fulfillment fails whenever the number of claimed GPUs differs from the number
of required tiers. -/
theorem fulfills_first_fit_vram_characterization :
    (∀ (res : Resource) (req : ResourceRequirement),
      Resource.fulfills res req = specFulfills vramFits res req) ∧
    (∀ (pred : GPU → GPUModel → Bool) (gpus : List GPU) (tiers : List GPUModel),
      (claimGpus pred gpus [] tiers).Nodup) ∧
    (∀ (res : Resource) (req : ResourceRequirement),
      (claimGpus GPU.fulfillsModel res.gpus [] req.minGpu).length ≠ req.minGpu.length →
      Resource.fulfills res req = false) :=
  ⟨fulfills_eq_specFulfills_vram,
   fun pred gpus tiers => claimGpus_nodup_from pred gpus tiers [] List.nodup_nil,
   fulfills_false_of_claim_count_ne⟩

def noGpuRes : Resource :=
  { ram := { size := 16, type := .DDR5 }
    ssd := { size := 16, type := .DDR5 }
    gpus := []
    cpu := .Model .Ryzen7 }

def oneTierReq : ResourceRequirement :=
  { minVram := none, minRam := none, minSsd := none,
    minGpu := [.GeForceRtx3060_12GB], minCpuCores := none }

/-- Closed instance of the C3 theorem: a resource advertising no GPU cannot
fulfill a one-tier requirement (claimed count 0 ≠ 1), and the code/spec
equivalence evaluated at the counterexample input. -/
theorem fulfills_first_fit_vram_characterization_instance :
    Resource.fulfills noGpuRes oneTierReq = false ∧
    Resource.fulfills gpuRankCexRes gpuRankCexReq =
      specFulfills vramFits gpuRankCexRes gpuRankCexReq :=
  ⟨fulfills_first_fit_vram_characterization.2.2 noGpuRes oneTierReq (by decide),
   fulfills_first_fit_vram_characterization.1 gpuRankCexRes gpuRankCexReq⟩

/-- C4: every stated minimum is enforced — RAM, SSD or CPU cores below their
minimum, or *any* advertised GPU below the `min_vram` floor, makes
`fulfills` false; and a resource sitting exactly at the stated RAM/SSD/CPU
minimums fulfills as soon as the GPU conditions hold. -/
theorem fulfills_minimum_bounds (res : Resource) (req : ResourceRequirement) :
    (∀ m, req.minRam = some m → res.ram.size < m →
      Resource.fulfills res req = false) ∧
    (∀ m, req.minSsd = some m → res.ssd.size < m →
      Resource.fulfills res req = false) ∧
    (∀ m, req.minCpuCores = some m → res.cpu.specs.cores < m →
      Resource.fulfills res req = false) ∧
    (∀ m g, req.minVram = some m → g ∈ res.gpus → g.specs.memory.size < m →
      Resource.fulfills res req = false) ∧
    (req.minRam = some res.ram.size → req.minSsd = some res.ssd.size →
      req.minCpuCores = some res.cpu.specs.cores →
      (req.minVram.all fun m =>
        res.gpus.all fun g => decide (m ≤ g.specs.memory.size)) = true →
      (claimGpus GPU.fulfillsModel res.gpus [] req.minGpu).length = req.minGpu.length →
      Resource.fulfills res req = true) := by
  refine ⟨?_, ?_, ?_, ?_, ?_⟩
  · intro m hm hlt
    unfold Resource.fulfills
    rw [hm]
    simp [hlt]
  · intro m hm hlt
    unfold Resource.fulfills
    rw [hm]
    simp [hlt]
  · intro m hm hlt
    unfold Resource.fulfills
    rw [hm]
    simp [hlt]
  · intro m g hm hg hlt
    unfold Resource.fulfills
    split
    · rfl
    · split
      · rfl
      · split
        · rfl
        · split
          · rfl
          · rename_i h4
            exfalso
            rw [hm] at h4
            apply h4
            simp only [List.any_eq_true, decide_eq_true_eq]
            exact ⟨g, hg, hlt⟩
  · intro hram hssd hcpu hv hlen
    unfold Resource.fulfills
    rw [guard_opt_lt req.minRam res.ram.size, guard_opt_lt req.minSsd res.ssd.size,
      guard_opt_lt req.minCpuCores res.cpu.specs.cores,
      guard_vram_lt req.minVram res.gpus, ifchain_eq_and,
      hram, hssd, hcpu]
    simp [Option.all, hlen]
    exact hv

def resAtMin : Resource :=
  { ram := { size := 16, type := .DDR5 }
    ssd := { size := 10, type := .DDR5 }
    gpus := [GPU.Model .GeForceRtx3060_12GB]
    cpu := .Specs { cores := 4, clockRate := 1000 } }

def reqAtMin : ResourceRequirement :=
  { minVram := some (8 * 1024 * 1024 * 1024), minRam := some 16, minSsd := some 10,
    minGpu := [.GeForceRtx3060_8GB], minCpuCores := some 4 }

def reqRamAbove : ResourceRequirement := { reqAtMin with minRam := some 17 }

/-- Closed instance of the C4 theorem: RAM one unit below the minimum fails;
RAM/SSD/CPU exactly at the minimums (GPU conditions satisfied) fulfills. -/
theorem fulfills_minimum_bounds_instance :
    Resource.fulfills resAtMin reqRamAbove = false ∧
    Resource.fulfills resAtMin reqAtMin = true :=
  ⟨(fulfills_minimum_bounds resAtMin reqRamAbove).1 17 rfl (by decide),
   (fulfills_minimum_bounds resAtMin reqAtMin).2.2.2.2 rfl rfl rfl (by decide)
     (by decide)⟩

/-! ## The §4.2 status edge table and the transition claims -/

/-- The §4.2 transition table: which `(current stored tag, requested target)`
pairs are edges of the status state machine. -/
def allowedEdge : PrStatus → ProofStatus → Bool
  | .Created, .Accepted => true
  | .Created, .Cancelled => true
  | .Created, .Rejected _ => true
  | .Accepted, .Assigned _ => true
  | .Assigned, .AcknowledgedAssignment _ => true
  | .AcknowledgedAssignment, .ProofBeingTested _ => true
  | .AcknowledgedAssignment, .Rejected _ => true
  | .ProofBeingTested, .Proven _ => true
  | .ProofBeingTested, .Rejected _ => true
  | _, _ => false

theorem statusUpdateRow_spec (now : Int) (prId : Nat) (target : ProofStatus)
    (r : MmProofRequest) (hid : r.id = prId) :
    (allowedEdge r.status target = true →
      (statusUpdateRow now prId target r).status = PrStatus.fromProofStatus target ∧
      (statusUpdateRow now prId target r).lastStatusUpdate = now) ∧
    (allowedEdge r.status target = false →
      (statusUpdateRow now prId target r).status = r.status) := by
  cases target <;> cases hs : r.status <;>
    simp_all [statusUpdateRow, allowedEdge, PrStatus.fromProofStatus]

theorem setProofRequestStatus_requests (now : Int) (prId : Nat)
    (target : ProofStatus) (db : Db) :
    (setProofRequestStatus now prId target db).mmProofRequests =
      db.mmProofRequests.map (statusUpdateRow now prId target) := by
  cases target <;> rfl

/-- C1: `set_proof_request_status` updates a record's stored status to the
requested target exactly on the edges of the §4.2 table, stamping
`last_status_update` on success; on every other pair the record's status is
left unchanged (in particular terminal statuses are never left and `Created`
is never re-entered), and the call itself does not error. -/
theorem setProofRequestStatus_follows_edge_table (now : Int) (prId : Nat)
    (target : ProofStatus) (db : Db) (i : Nat)
    (h1 : i < db.mmProofRequests.length)
    (h2 : i < (setProofRequestStatus now prId target db).mmProofRequests.length)
    (hid : (db.mmProofRequests.get ⟨i, h1⟩).id = prId) :
    (allowedEdge (db.mmProofRequests.get ⟨i, h1⟩).status target = true →
      ((setProofRequestStatus now prId target db).mmProofRequests.get ⟨i, h2⟩).status =
        PrStatus.fromProofStatus target ∧
      ((setProofRequestStatus now prId target db).mmProofRequests.get ⟨i, h2⟩).lastStatusUpdate =
        now) ∧
    (allowedEdge (db.mmProofRequests.get ⟨i, h1⟩).status target = false →
      ((setProofRequestStatus now prId target db).mmProofRequests.get ⟨i, h2⟩).status =
        (db.mmProofRequests.get ⟨i, h1⟩).status) := by
  have e : (setProofRequestStatus now prId target db).mmProofRequests.get ⟨i, h2⟩ =
      statusUpdateRow now prId target (db.mmProofRequests.get ⟨i, h1⟩) := by
    simp only [List.get_eq_getElem, setProofRequestStatus_requests, List.getElem_map]
  rw [e]
  exact statusUpdateRow_spec now prId target _ hid

def c1Row : MmProofRequest :=
  { id := 1, assigned := none, lastStatusUpdate := 0, payment := .Nothing,
    amount := none, hash := 0, publicKey := 0, payload := 0, signature := 0,
    requester := none, status := .Created, rejectionMessage := none,
    operatorId := none, proof := none }

def c1Db : Db := { mmProofRequests := [c1Row], mmOperators := [] }

/-- Closed instance of the C1 theorem: a `Created` record accepts the
`Created → Accepted` edge and gets its timestamp stamped. -/
theorem setProofRequestStatus_follows_edge_table_instance :
    ((setProofRequestStatus 42 1 .Accepted c1Db).mmProofRequests.get
        ⟨0, by decide⟩).status = PrStatus.Accepted ∧
    ((setProofRequestStatus 42 1 .Accepted c1Db).mmProofRequests.get
        ⟨0, by decide⟩).lastStatusUpdate = 42 :=
  (setProofRequestStatus_follows_edge_table 42 1 .Accepted c1Db 0 (by decide)
    (by decide) (by decide)).1 (by decide)

/-! ## The `Assigned` side effects (operator `last_assignment`, `assigned`
column) -/

def c7Row : MmProofRequest :=
  { id := 1, assigned := none, lastStatusUpdate := 0, payment := .Nothing,
    amount := none, hash := 0, publicKey := 0, payload := 0, signature := 0,
    requester := none, status := .Accepted, rejectionMessage := none,
    operatorId := none, proof := none }

def c7Operator : MmOperator :=
  { id := 5, lastInteraction := 0,
    resource := { ram := { size := 0, type := .DDR4 },
                  ssd := { size := 0, type := .DDR4 },
                  gpus := [], cpu := .Model .Ryzen7 },
    reputation := 0, online := true, lastAssignment := 0 }

def c7Db : Db := { mmProofRequests := [c7Row], mmOperators := [c7Operator] }

/-- C7 evaluated at a concrete failing input: a successful
`Accepted → Assigned(5)` transition writes the `operator_id` column and
refreshes the operator's `last_assignment`, but the record's `assigned`
column — the field `ProofRequestParams::assigned` is populated from — stays
`NULL` (nothing in the store ever writes it). -/
theorem assigned_column_not_set_on_assignment :
    ((setProofRequestStatus 100 1 (.Assigned 5) c7Db).mmProofRequests.map
      (fun r => (r.status, r.operatorId, r.assigned)) =
        [(PrStatus.Assigned, some 5, none)]) ∧
    ((setProofRequestStatus 100 1 (.Assigned 5) c7Db).mmOperators.map
      (fun o => (o.id, o.lastAssignment)) = [(5, 100)]) := by
  refine ⟨by decide, by decide⟩

/-- C10: a `set_proof_request_status(_, Assigned(op))` call whose status
guard misses (current status is not `Accepted`) leaves the request row
entirely unchanged, yet still refreshes operator `op`'s `last_assignment` —
the operator-table write is unconditional on the guard's outcome. -/
theorem setLastAssignment_unconditional_on_guard (now : Int) (prId : Nat)
    (op : Nat) (db : Db) (i : Nat)
    (h1 : i < db.mmProofRequests.length)
    (h2 : i < (setProofRequestStatus now prId (.Assigned op) db).mmProofRequests.length)
    (hne : (db.mmProofRequests.get ⟨i, h1⟩).status ≠ .Accepted) :
    (setProofRequestStatus now prId (.Assigned op) db).mmProofRequests.get ⟨i, h2⟩ =
      db.mmProofRequests.get ⟨i, h1⟩ ∧
    ∀ o ∈ (setProofRequestStatus now prId (.Assigned op) db).mmOperators,
      o.id = op → o.lastAssignment = now := by
  constructor
  · have e : (setProofRequestStatus now prId (.Assigned op) db).mmProofRequests.get ⟨i, h2⟩ =
        statusUpdateRow now prId (.Assigned op) (db.mmProofRequests.get ⟨i, h1⟩) := by
      simp only [List.get_eq_getElem, setProofRequestStatus_requests, List.getElem_map]
    rw [e]
    simp only [statusUpdateRow]
    rw [if_neg]
    intro hcon
    exact hne hcon.1
  · intro o ho hid
    have : (setProofRequestStatus now prId (.Assigned op) db).mmOperators =
        db.mmOperators.map (fun o =>
          if o.id = op then { o with lastAssignment := now } else o) := rfl
    rw [this] at ho
    rcases List.mem_map.mp ho with ⟨o0, _, heq⟩
    by_cases h : o0.id = op
    · rw [if_pos h] at heq
      rw [← heq]
    · rw [if_neg h] at heq
      exfalso
      exact h (heq ▸ hid)

def c10Row : MmProofRequest := { c7Row with status := .Proven }

def c10Db : Db := { mmProofRequests := [c10Row], mmOperators := [c7Operator] }

/-- Closed instance of the C10 theorem: a guard miss (record already
`Proven`) still refreshes operator 5's `last_assignment`. -/
theorem setLastAssignment_unconditional_on_guard_instance :
    (setProofRequestStatus 100 1 (.Assigned 5) c10Db).mmProofRequests.get
        ⟨0, by decide⟩ = c10Db.mmProofRequests.get ⟨0, by decide⟩ ∧
    ∀ o ∈ (setProofRequestStatus 100 1 (.Assigned 5) c10Db).mmOperators,
      o.id = 5 → o.lastAssignment = 100 :=
  setLastAssignment_unconditional_on_guard 100 1 5 c10Db 0 (by decide) (by decide)
    (by decide)

/-! ## The guarded `set_payment_to_ready` edge -/

/-- C2: `set_payment_to_ready` succeeds iff the record's current payment tag
is `Reserved`; on success only the payment tag (to `ReadyToPay`) and the
timestamp change — the `amount` column is untouched, so `Reserved(a)` becomes
exactly `ReadyToPay(a)` — and on any other current payment the call fails and
the store is left unchanged. -/
theorem setPaymentToReady_guarded (now : Int) (prId : Nat) (db : Db)
    (pre post : List MmProofRequest) (r : MmProofRequest)
    (hsplit : db.mmProofRequests = pre ++ r :: post)
    (hpre : ∀ x ∈ pre, x.id ≠ prId) (hpost : ∀ x ∈ post, x.id ≠ prId)
    (hr : r.id = prId) :
    ((setPaymentToReady now prId db).2 = true ↔ r.payment = .Reserved) ∧
    (r.payment = .Reserved →
      (setPaymentToReady now prId db).1.mmProofRequests =
        pre ++ { r with lastStatusUpdate := now, payment := .ReadyToPay } :: post) ∧
    (r.payment ≠ .Reserved → (setPaymentToReady now prId db).1 = db) := by
  have hcount : db.mmProofRequests.countP
      (fun x => x.id == prId && x.payment == PrPayment.Reserved) =
      if r.payment = PrPayment.Reserved then 1 else 0 := by
    rw [hsplit, List.countP_append, List.countP_cons,
      List.countP_eq_zero.mpr (fun x hx => by simp [hpre x hx]),
      List.countP_eq_zero.mpr (fun x hx => by simp [hpost x hx])]
    by_cases hres : r.payment = PrPayment.Reserved
    · simp [hres, hr]
    · simp [hres, hr]
  have hmap_pre : pre.map (fun x =>
      if x.id = prId ∧ x.payment = PrPayment.Reserved then
        { x with lastStatusUpdate := now, payment := PrPayment.ReadyToPay }
      else x) = pre := by
    rw [show pre = pre.map id from (List.map_id pre).symm]
    rw [List.map_map]
    apply List.map_congr_left
    intro x hx
    simp only [Function.comp, id]
    rw [if_neg]
    intro hc
    exact hpre x (by simpa using hx) hc.1
  have hmap_post : post.map (fun x =>
      if x.id = prId ∧ x.payment = PrPayment.Reserved then
        { x with lastStatusUpdate := now, payment := PrPayment.ReadyToPay }
      else x) = post := by
    rw [show post = post.map id from (List.map_id post).symm]
    rw [List.map_map]
    apply List.map_congr_left
    intro x hx
    simp only [Function.comp, id]
    rw [if_neg]
    intro hc
    exact hpost x (by simpa using hx) hc.1
  refine ⟨?_, ?_, ?_⟩
  · show (db.mmProofRequests.countP _ == 1) = true ↔ _
    rw [hcount]
    by_cases hres : r.payment = PrPayment.Reserved
    · simp [hres]
    · simp [hres]
  · intro hres
    show db.mmProofRequests.map _ = _
    rw [hsplit, List.map_append, List.map_cons, hmap_pre, hmap_post,
      if_pos ⟨hr, hres⟩]
  · intro hres
    show Db.mk (db.mmProofRequests.map _) db.mmOperators = db
    rw [hsplit, List.map_append, List.map_cons, hmap_pre, hmap_post,
      if_neg (fun hc => hres hc.2)]
    rw [← hsplit]

def c2Row : MmProofRequest :=
  { id := 9, assigned := none, lastStatusUpdate := 0, payment := .Reserved,
    amount := some 54321, hash := 0, publicKey := 0, payload := 0,
    signature := 0, requester := none, status := .Accepted,
    rejectionMessage := none, operatorId := none, proof := none }

def c2Db : Db := { mmProofRequests := [c2Row], mmOperators := [] }

/-- Closed instance of the C2 theorem: from `Reserved(54321)` the call
succeeds and the row becomes `ReadyToPay` with the amount untouched. -/
theorem setPaymentToReady_guarded_instance :
    ((setPaymentToReady 7 9 c2Db).2 = true ↔ c2Row.payment = .Reserved) ∧
    ((setPaymentToReady 7 9 c2Db).1.mmProofRequests =
      [{ c2Row with lastStatusUpdate := 7, payment := PrPayment.ReadyToPay }]) :=
  have h := setPaymentToReady_guarded 7 9 c2Db [] [] c2Row rfl
    (by intro x hx; cases hx) (by intro x hx; cases hx) rfl
  ⟨h.1, h.2.1 rfl⟩

/-! ## Operator availability -/

theorem tdiv_sixty_lt_three (d : Int) : d.tdiv 60 < 3 ↔ d < 180 := by
  rcases le_or_lt 0 d with h | h
  · rw [Int.tdiv_eq_ediv h (by norm_num)]
    omega
  · have h1 : (0 : Int) ≤ -d := by omega
    have h2 : 0 ≤ (-d).tdiv 60 := Int.tdiv_nonneg h1 (by norm_num)
    have h3 : d.tdiv 60 ≤ 0 := by
      have h4 := Int.neg_tdiv (-d) 60
      rw [neg_neg] at h4
      omega
    constructor <;> intro _ <;> omega

theorem mem_occupiedOperatorIds (db : Db) (oid : Nat) :
    oid ∈ occupiedOperatorIds db ↔
      ∃ r ∈ db.mmProofRequests,
        (r.status = .Assigned ∨ r.status = .AcknowledgedAssignment) ∧
        r.operatorId = some oid := by
  unfold occupiedOperatorIds
  rw [List.mem_map]
  constructor
  · rintro ⟨r, hrmem, hgetd⟩
    rcases List.mem_filter.mp hrmem with ⟨hmem, hcond⟩
    rw [Bool.and_eq_true, Bool.or_eq_true] at hcond
    rcases hcond with ⟨hst, hsome⟩
    rcases Option.isSome_iff_exists.mp hsome with ⟨v, hv⟩
    refine ⟨r, hmem, ?_, ?_⟩
    · rcases hst with hst | hst
      · exact Or.inl (by simpa using hst)
      · exact Or.inr (by simpa using hst)
    · rw [hv]
      rw [hv] at hgetd
      simp at hgetd
      rw [hgetd]
  · rintro ⟨r, hmem, hst, hopid⟩
    refine ⟨r, List.mem_filter.mpr ⟨hmem, ?_⟩, ?_⟩
    · rw [Bool.and_eq_true, Bool.or_eq_true]
      constructor
      · rcases hst with hst | hst
        · exact Or.inl (by simp [hst])
        · exact Or.inr (by simp [hst])
      · rw [hopid]
        rfl
    · rw [hopid]
      rfl

/-- C8: `available_operators` returns exactly the registered operators that
are not the `operator_id` of any request in status `Assigned` or
`AcknowledgedAssignment`, and that are online — graceful-exit flag set and
last heartbeat under three minutes (180 seconds) old. -/
theorem availableOperators_characterization (now : Int) (db : Db)
    (o : MmOperator) :
    o ∈ availableOperators now db ↔
      o ∈ db.mmOperators ∧
      (∀ r ∈ db.mmProofRequests,
        (r.status = .Assigned ∨ r.status = .AcknowledgedAssignment) →
        r.operatorId ≠ some o.id) ∧
      o.online = true ∧ now - o.lastInteraction < 180 := by
  unfold availableOperators
  constructor
  · intro h
    rcases List.mem_filter.mp h with ⟨h1, honline⟩
    rcases List.mem_filter.mp h1 with ⟨hmem, hunocc⟩
    rw [Bool.not_eq_true'] at hunocc
    have hnotmem : o.id ∉ occupiedOperatorIds db := by simpa using hunocc
    rw [isOnline, Bool.and_eq_true, decide_eq_true_eq, tdiv_sixty_lt_three] at honline
    refine ⟨hmem, ?_, honline.1, honline.2⟩
    intro r hrmem hst hopid
    exact hnotmem ((mem_occupiedOperatorIds db o.id).mpr ⟨r, hrmem, hst, hopid⟩)
  · rintro ⟨hmem, hfree, hon, hlt⟩
    refine List.mem_filter.mpr ⟨List.mem_filter.mpr ⟨hmem, ?_⟩, ?_⟩
    · rw [Bool.not_eq_true']
      have hnotmem : o.id ∉ occupiedOperatorIds db := by
        intro hcon
        rcases (mem_occupiedOperatorIds db o.id).mp hcon with ⟨r, hrmem, hst, hopid⟩
        exact hfree r hrmem hst hopid
      simpa using hnotmem
    · rw [isOnline, Bool.and_eq_true, decide_eq_true_eq, tdiv_sixty_lt_three]
      exact ⟨hon, hlt⟩

def c8Operator : MmOperator := { c7Operator with id := 6, lastInteraction := 30 }

def c8Db : Db := { mmProofRequests := [], mmOperators := [c8Operator] }

/-- Closed instance of the C8 theorem: an online, unoccupied operator with a
heartbeat 70 seconds old is available. -/
theorem availableOperators_characterization_instance :
    c8Operator ∈ availableOperators 100 c8Db :=
  (availableOperators_characterization 100 c8Db c8Operator).mpr
    ⟨by decide, ⟨by simp [c8Db], by decide, by decide⟩⟩

/-! ## Unregistration, ready-to-pay grouping, and overflow behavior -/

def c9Operator : MmOperator := { c7Operator with id := 7 }

def c9Db : Db := { mmProofRequests := [], mmOperators := [c9Operator] }

/-- C9 evaluated at a concrete failing input: graceful unregistration issues
a SQL `DELETE`, so the operator's record is gone afterwards — `get_operator`
returns nothing rather than a retained record with `online = false`. -/
theorem unregister_deletes_operator_record :
    getOperator 7 c9Db = some c9Operator ∧
    getOperator 7 (unregisterOperatorFromP2p 7 c9Db) = none ∧
    (unregisterOperatorFromP2p 7 c9Db).mmOperators = [] :=
  ⟨rfl, rfl, rfl⟩

def c5RowA : MmProofRequest :=
  { id := 101, assigned := some 1, lastStatusUpdate := 0,
    payment := .ReadyToPay, amount := some 5, hash := 0, publicKey := 2,
    payload := 0, signature := 0, requester := some 2, status := .Proven,
    rejectionMessage := none, operatorId := some 1, proof := none }

def c5RowB : MmProofRequest := { c5RowA with id := 102, amount := some 7 }

def c5Db : Db := { mmProofRequests := [c5RowA, c5RowB], mmOperators := [] }

/-- C5 evaluated at a concrete failing input: two `ReadyToPay` records for
the same (operator 1, requester 2) pair with amounts 5 and 7.  The grouping
keeps only the first amount (5, not the sum 12) because the `checked_add`
result is discarded in the already-present branch, while both ids are still
returned for settlement. -/
theorem readyToPay_grouping_keeps_first_amount :
    getReadyToPayProofRequestsForMany c5Db = .ok ([(1, [(2, 5)])], [101, 102]) :=
  rfl

theorem nonRefundable_foldl_saturates (l : List (Option Nat)) :
    ∀ acc, acc ≤ U256MAX →
      l.foldl (fun acc a =>
        match u256CheckedAdd acc (a.getD 0) with
        | some s => s
        | none => U256MAX) acc =
      if acc + (l.map (fun a => a.getD 0)).sum < U256MOD then
        acc + (l.map (fun a => a.getD 0)).sum
      else U256MAX := by
  have h0 : 0 < U256MOD := by unfold U256MOD; positivity
  have hMAX : U256MAX + 1 = U256MOD := by unfold U256MAX; omega
  induction l with
  | nil =>
    intro acc hacc
    simp only [List.foldl_nil, List.map_nil, List.sum_nil, Nat.add_zero]
    rw [if_pos (by omega)]
  | cons a rest ih =>
    intro acc hacc
    simp only [List.foldl_cons, List.map_cons, List.sum_cons]
    by_cases h : acc + a.getD 0 < U256MOD
    · rw [show (match u256CheckedAdd acc (a.getD 0) with
          | some s => s
          | none => U256MAX) = acc + a.getD 0 from by simp [u256CheckedAdd, h]]
      rw [ih (acc + a.getD 0) (by omega)]
      rw [show acc + a.getD 0 + (rest.map (fun a => a.getD 0)).sum =
        acc + (a.getD 0 + (rest.map (fun a => a.getD 0)).sum) from by omega]
    · rw [show (match u256CheckedAdd acc (a.getD 0) with
          | some s => s
          | none => U256MAX) = U256MAX from by simp [u256CheckedAdd, h]]
      rw [ih U256MAX le_rfl]
      have hsum : ¬(acc + (a.getD 0 + (rest.map (fun a => a.getD 0)).sum) <
          U256MOD) := by omega
      rw [if_neg hsum]
      by_cases h2 : U256MAX + (rest.map (fun a => a.getD 0)).sum < U256MOD
      · rw [if_pos h2]
        omega
      · rw [if_neg h2]

/-- Inner-map lookup across the nested association maps of the grouping. -/
def pairLookup (payments : List (Nat × List (Nat × Nat))) (p q : Nat) :
    Option Nat :=
  (assocFind p payments).bind (fun inner => assocFind q inner)

/-- Amount of the first row carrying a given (prover, requester) pair — the
value the grouping stores for the pair, since amounts are never accumulated. -/
def firstAmount : List (Nat × Nat × Nat × Nat) → Nat → Nat → Option Nat
  | [], _, _ => none
  | (p, q, a, _) :: rest, p1, q1 =>
    if p = p1 ∧ q = q1 then some a else firstAmount rest p1 q1

/-- The overflow condition the grouping detects: some selected row's amount,
added to the amount first recorded for its (prover, requester) pair, leaves
the 256-bit range. -/
def overflowPair (rows : List (Nat × Nat × Nat × Nat)) : Prop :=
  ∃ (done : List (Nat × Nat × Nat × Nat)) (p q a i : Nat)
    (rest : List (Nat × Nat × Nat × Nat)) (a0 : Nat),
    rows = done ++ (p, q, a, i) :: rest ∧
    firstAmount done p q = some a0 ∧ U256MOD ≤ a0 + a

theorem assocFind_append {α : Type} (key : Nat) (l1 l2 : List (Nat × α)) :
    assocFind key (l1 ++ l2) =
      match assocFind key l1 with
      | some v => some v
      | none => assocFind key l2 := by
  induction l1 with
  | nil => rfl
  | cons hd tl ih =>
    obtain ⟨k0, v0⟩ := hd
    show (if k0 = key then some v0 else assocFind key (tl ++ l2)) =
      match (if k0 = key then some v0 else assocFind key tl) with
      | some v => some v
      | none => assocFind key l2
    by_cases hk : k0 = key
    · rw [if_pos hk, if_pos hk]
    · rw [if_neg hk, if_neg hk, ih]

theorem assocFind_appendEntry (key p1 q1 a1 : Nat)
    (l : List (Nat × List (Nat × Nat))) :
    assocFind key (l.map (fun kv =>
        if kv.1 = p1 then (kv.1, kv.2 ++ [(q1, a1)]) else kv)) =
      if key = p1 then (assocFind key l).map (fun v => v ++ [(q1, a1)])
      else assocFind key l := by
  induction l with
  | nil => by_cases h : key = p1 <;> simp [assocFind, h]
  | cons hd tl ih =>
    obtain ⟨k0, v0⟩ := hd
    simp only [List.map_cons]
    by_cases hk0p : k0 = p1
    · rw [show (if (k0, v0).1 = p1 then ((k0, v0).1, (k0, v0).2 ++ [(q1, a1)])
          else (k0, v0)) = (k0, v0 ++ [(q1, a1)]) from by rw [if_pos hk0p]]
      show (if k0 = key then some (v0 ++ [(q1, a1)])
          else assocFind key (tl.map _)) = _
      by_cases hkey : k0 = key
      · rw [if_pos hkey, if_pos (show key = p1 from hkey ▸ hk0p)]
        show _ = Option.map _ (if k0 = key then some v0 else assocFind key tl)
        rw [if_pos hkey]
        rfl
      · rw [if_neg hkey, ih]
        by_cases hkp : key = p1
        · rw [if_pos hkp, if_pos hkp]
          show Option.map _ (assocFind key tl) =
            Option.map _ (if k0 = key then some v0 else assocFind key tl)
          rw [if_neg hkey]
        · rw [if_neg hkp, if_neg hkp]
          show assocFind key tl = (if k0 = key then some v0 else assocFind key tl)
          rw [if_neg hkey]
    · rw [show (if (k0, v0).1 = p1 then ((k0, v0).1, (k0, v0).2 ++ [(q1, a1)])
          else (k0, v0)) = (k0, v0) from by rw [if_neg hk0p]]
      show (if k0 = key then some v0 else assocFind key (tl.map _)) = _
      by_cases hkey : k0 = key
      · rw [if_pos hkey, if_neg (show ¬key = p1 from fun h => hk0p (hkey.trans h))]
        show some v0 = (if k0 = key then some v0 else assocFind key tl)
        rw [if_pos hkey]
      · rw [if_neg hkey, ih]
        by_cases hkp : key = p1
        · rw [if_pos hkp, if_pos hkp]
          show Option.map _ (assocFind key tl) =
            Option.map _ (if k0 = key then some v0 else assocFind key tl)
          rw [if_neg hkey]
        · rw [if_neg hkp, if_neg hkp]
          show assocFind key tl = (if k0 = key then some v0 else assocFind key tl)
          rw [if_neg hkey]

theorem firstAmount_append (p q : Nat) (l1 l2 : List (Nat × Nat × Nat × Nat)) :
    firstAmount (l1 ++ l2) p q =
      match firstAmount l1 p q with
      | some v => some v
      | none => firstAmount l2 p q := by
  induction l1 with
  | nil => rfl
  | cons hd tl ih =>
    obtain ⟨p0, q0, a0, i0⟩ := hd
    show (if p0 = p ∧ q0 = q then some a0 else firstAmount (tl ++ l2) p q) =
      match (if p0 = p ∧ q0 = q then some a0 else firstAmount tl p q) with
      | some v => some v
      | none => firstAmount l2 p q
    by_cases h : p0 = p ∧ q0 = q
    · rw [if_pos h, if_pos h]
    · rw [if_neg h, if_neg h, ih]

theorem pairLookup_extend_seen (done : List (Nat × Nat × Nat × Nat))
    (payments : List (Nat × List (Nat × Nat))) (p1 q1 a1 i1 : Nat)
    (hinv : ∀ p q, pairLookup payments p q = firstAmount done p q)
    (hseen : firstAmount done p1 q1 ≠ none) :
    ∀ p q, pairLookup payments p q =
      firstAmount (done ++ [(p1, q1, a1, i1)]) p q := by
  intro p q
  rw [hinv p q, firstAmount_append]
  cases hfa : firstAmount done p q with
  | some x => rfl
  | none =>
    show none = if p1 = p ∧ q1 = q then some a1 else none
    rw [if_neg]
    rintro ⟨hp, hq⟩
    exact hseen (by rw [hp, hq]; exact hfa)

theorem pairLookup_extend_inner (done : List (Nat × Nat × Nat × Nat))
    (payments : List (Nat × List (Nat × Nat))) (inner : List (Nat × Nat))
    (p1 q1 a1 i1 : Nat)
    (hinv : ∀ p q, pairLookup payments p q = firstAmount done p q)
    (hfp : assocFind p1 payments = some inner) :
    ∀ p q, pairLookup (payments.map (fun kv =>
        if kv.1 = p1 then (kv.1, kv.2 ++ [(q1, a1)]) else kv)) p q =
      firstAmount (done ++ [(p1, q1, a1, i1)]) p q := by
  intro p q
  unfold pairLookup
  rw [assocFind_appendEntry, firstAmount_append]
  by_cases hp : p = p1
  · subst hp
    rw [if_pos rfl, hfp]
    show assocFind q (inner ++ [(q1, a1)]) = _
    rw [assocFind_append]
    have heq : firstAmount done p q = assocFind q inner := by
      rw [← hinv p q]
      unfold pairLookup
      rw [hfp]
      rfl
    rw [heq]
    cases hfq2 : assocFind q inner with
    | some v => rfl
    | none =>
      show (if q1 = q then some a1 else none) =
        if p = p ∧ q1 = q then some a1 else none
      by_cases hq : q1 = q
      · rw [if_pos hq, if_pos ⟨rfl, hq⟩]
      · rw [if_neg hq, if_neg (fun hc => hq hc.2)]
  · rw [if_neg hp]
    rw [show (assocFind p payments).bind (fun inner => assocFind q inner) =
      firstAmount done p q from hinv p q]
    cases hfa : firstAmount done p q with
    | some x => rfl
    | none =>
      show none = if p1 = p ∧ q1 = q then some a1 else none
      rw [if_neg (fun hc => hp hc.1.symm)]

theorem pairLookup_extend_prover (done : List (Nat × Nat × Nat × Nat))
    (payments : List (Nat × List (Nat × Nat))) (p1 q1 a1 i1 : Nat)
    (hinv : ∀ p q, pairLookup payments p q = firstAmount done p q)
    (hfp : assocFind p1 payments = none) :
    ∀ p q, pairLookup (payments ++ [(p1, [(q1, a1)])]) p q =
      firstAmount (done ++ [(p1, q1, a1, i1)]) p q := by
  intro p q
  unfold pairLookup
  rw [assocFind_append, firstAmount_append]
  cases hfpp : assocFind p payments with
  | some inner =>
    have heq : firstAmount done p q = assocFind q inner := by
      rw [← hinv p q]
      unfold pairLookup
      rw [hfpp]
      rfl
    show assocFind q inner = _
    rw [heq]
    cases hfa : assocFind q inner with
    | some x => rfl
    | none =>
      show none = if p1 = p ∧ q1 = q then some a1 else none
      rw [if_neg]
      rintro ⟨hp, hq⟩
      rw [hp] at hfp
      rw [hfp] at hfpp
      exact Option.noConfusion hfpp
  | none =>
    have hfad : firstAmount done p q = none := by
      rw [← hinv p q]
      unfold pairLookup
      rw [hfpp]
      rfl
    rw [hfad]
    show ((if p1 = p then some [(q1, a1)] else none).bind
      fun inner => assocFind q inner) = if p1 = p ∧ q1 = q then some a1 else none
    by_cases hp : p1 = p
    · rw [if_pos hp]
      show (if q1 = q then some a1 else none) = _
      by_cases hq : q1 = q
      · rw [if_pos hq, if_pos ⟨hp, hq⟩]
      · rw [if_neg hq, if_neg (fun hc => hq hc.2)]
    · rw [if_neg hp, if_neg (fun hc => hp hc.1)]
      rfl

theorem overflow_split_cons (done : List (Nat × Nat × Nat × Nat))
    (p1 q1 a1 i1 : Nat) (rows : List (Nat × Nat × Nat × Nat))
    (hno : ∀ a0, firstAmount done p1 q1 = some a0 → a0 + a1 < U256MOD) :
    (∃ mid p q a i rest a0,
      (p1, q1, a1, i1) :: rows = mid ++ (p, q, a, i) :: rest ∧
      firstAmount (done ++ mid) p q = some a0 ∧ U256MOD ≤ a0 + a) ↔
    (∃ mid p q a i rest a0,
      rows = mid ++ (p, q, a, i) :: rest ∧
      firstAmount ((done ++ [(p1, q1, a1, i1)]) ++ mid) p q = some a0 ∧
      U256MOD ≤ a0 + a) := by
  constructor
  · rintro ⟨mid, p, q, a, i, rest, a0, hsplit, hfa, hle⟩
    cases mid with
    | nil =>
      rw [List.nil_append] at hsplit
      rw [List.append_nil] at hfa
      obtain ⟨hhd, -⟩ := List.cons.inj hsplit
      simp only [Prod.mk.injEq] at hhd
      obtain ⟨hp, hq, ha, -⟩ := hhd
      exfalso
      have := hno a0 (by rw [hp, hq]; exact hfa)
      omega
    | cons m mid2 =>
      rw [List.cons_append] at hsplit
      obtain ⟨hhd, htl⟩ := List.cons.inj hsplit
      refine ⟨mid2, p, q, a, i, rest, a0, htl, ?_, hle⟩
      rw [List.append_assoc, List.singleton_append, hhd]
      exact hfa
  · rintro ⟨mid, p, q, a, i, rest, a0, hsplit, hfa, hle⟩
    refine ⟨(p1, q1, a1, i1) :: mid, p, q, a, i, rest, a0,
      by rw [hsplit, List.cons_append], ?_, hle⟩
    rw [List.append_assoc, List.singleton_append] at hfa
    exact hfa

theorem aggregateForMany_error_iff :
    ∀ (rows done : List (Nat × Nat × Nat × Nat))
      (payments : List (Nat × List (Nat × Nat))) (tb : List Nat),
      (∀ p q, pairLookup payments p q = firstAmount done p q) →
      ∀ s, (aggregateForMany rows payments tb = .error s ↔
        (s = "Overflow occured" ∧
         ∃ mid p q a i rest a0,
           rows = mid ++ (p, q, a, i) :: rest ∧
           firstAmount (done ++ mid) p q = some a0 ∧ U256MOD ≤ a0 + a)) := by
  intro rows
  induction rows with
  | nil =>
    intro done payments tb hinv s
    constructor
    · intro h
      exact absurd h (by simp [aggregateForMany])
    · rintro ⟨-, mid, p, q, a, i, rest, a0, hsplit, -, -⟩
      exact absurd hsplit (by cases mid <;> simp)
  | cons head rows ih =>
    obtain ⟨p1, q1, a1, i1⟩ := head
    intro done payments tb hinv s
    cases hfp : assocFind p1 payments with
    | some inner =>
      cases hfq : assocFind q1 inner with
      | some a0' =>
        have hfirst : firstAmount done p1 q1 = some a0' := by
          rw [← hinv p1 q1]
          unfold pairLookup
          rw [hfp]
          exact hfq
        by_cases hov : U256MOD ≤ a0' + a1
        · have hstep : aggregateForMany ((p1, q1, a1, i1) :: rows) payments tb =
              .error "Overflow occured" := by
            simp [aggregateForMany, hfp, hfq, u256CheckedAdd, Nat.not_lt.mpr hov]
          rw [hstep]
          constructor
          · intro h
            injection h with hs
            exact ⟨hs.symm, [], p1, q1, a1, i1, rows, a0', by simp,
              by rw [List.append_nil]; exact hfirst, hov⟩
          · rintro ⟨hs, -⟩
            rw [hs]
        · have hne : a0' + a1 < U256MOD := Nat.not_le.mp hov
          have hstep : aggregateForMany ((p1, q1, a1, i1) :: rows) payments tb =
              aggregateForMany rows payments (tb ++ [i1]) := by
            simp [aggregateForMany, hfp, hfq, u256CheckedAdd, hne]
          rw [hstep,
            ih (done ++ [(p1, q1, a1, i1)]) payments (tb ++ [i1])
              (pairLookup_extend_seen done payments p1 q1 a1 i1 hinv
                (by rw [hfirst]; exact fun hcon => Option.noConfusion hcon)) s,
            overflow_split_cons done p1 q1 a1 i1 rows
              (fun a0 h => by
                rw [hfirst] at h
                rw [← Option.some.inj h]
                exact hne)]
      | none =>
        have hnone : firstAmount done p1 q1 = none := by
          rw [← hinv p1 q1]
          unfold pairLookup
          rw [hfp]
          exact hfq
        have hstep : aggregateForMany ((p1, q1, a1, i1) :: rows) payments tb =
            aggregateForMany rows
              (payments.map (fun kv =>
                if kv.1 = p1 then (kv.1, kv.2 ++ [(q1, a1)]) else kv))
              (tb ++ [i1]) := by
          simp [aggregateForMany, hfp, hfq]
        rw [hstep,
          ih (done ++ [(p1, q1, a1, i1)])
            (payments.map (fun kv =>
              if kv.1 = p1 then (kv.1, kv.2 ++ [(q1, a1)]) else kv))
            (tb ++ [i1])
            (pairLookup_extend_inner done payments inner p1 q1 a1 i1 hinv hfp) s,
          overflow_split_cons done p1 q1 a1 i1 rows
            (fun a0 h => by rw [hnone] at h; exact Option.noConfusion h)]
    | none =>
      have hnone : firstAmount done p1 q1 = none := by
        rw [← hinv p1 q1]
        unfold pairLookup
        rw [hfp]
        rfl
      have hstep : aggregateForMany ((p1, q1, a1, i1) :: rows) payments tb =
          aggregateForMany rows (payments ++ [(p1, [(q1, a1)])]) (tb ++ [i1]) := by
        simp [aggregateForMany, hfp]
      rw [hstep,
        ih (done ++ [(p1, q1, a1, i1)]) (payments ++ [(p1, [(q1, a1)])])
          (tb ++ [i1])
          (pairLookup_extend_prover done payments p1 q1 a1 i1 hinv hfp) s,
        overflow_split_cons done p1 q1 a1 i1 rows
          (fun a0 h => by rw [hnone] at h; exact Option.noConfusion h)]

/-- C6 (amended): overflow handling differs between the two aggregations.
`non_refundable_amount` never errors — it returns the running sum, saturated
to `U256::max_value()` as soon as an addition overflows.  The ready-to-pay
grouping returns the error `"Overflow occured"` (and no result) precisely
when some selected row's amount, added to the amount *first recorded* for its
(operator, requester) pair, leaves the 256-bit range; since per-pair amounts
are never accumulated, an aggregate that overflows only across three or more
rows goes undetected and the call succeeds. -/
theorem paymentAggregation_overflow_behavior :
    (∀ (proofRequester : Nat) (db : Db),
      nonRefundableAmount proofRequester db =
        .ok (if ((nonRefundableRows proofRequester db).map (fun a => a.getD 0)).sum <
              U256MOD then
            ((nonRefundableRows proofRequester db).map (fun a => a.getD 0)).sum
          else U256MAX)) ∧
    (∀ (db : Db) (s : String),
      getReadyToPayProofRequestsForMany db = .error s ↔
        s = "Overflow occured" ∧ overflowPair (readyToPayRowsForMany db)) := by
  constructor
  · intro proofRequester db
    unfold nonRefundableAmount
    rw [nonRefundable_foldl_saturates (nonRefundableRows proofRequester db) 0
      (Nat.zero_le _)]
    simp only [Nat.zero_add]
  · intro db s
    unfold getReadyToPayProofRequestsForMany
    rw [aggregateForMany_error_iff (readyToPayRowsForMany db) [] [] []
      (fun p q => rfl) s]
    unfold overflowPair
    simp only [List.nil_append]

def c6RowA : MmProofRequest :=
  { id := 10, assigned := none, lastStatusUpdate := 0, payment := .Reserved,
    amount := some U256MAX, hash := 0, publicKey := 2, payload := 0,
    signature := 0, requester := none, status := .Accepted,
    rejectionMessage := none, operatorId := none, proof := none }

def c6RowB : MmProofRequest := { c6RowA with id := 11, amount := some 1 }

def c6Db : Db := { mmProofRequests := [c6RowA, c6RowB], mmOperators := [] }

/-- C6 counterexample: a requester holding `Reserved` amounts
`U256::max_value()` and `1` (their sum overflows 2^256) — the claim says the
aggregation call must return an error, but `non_refundable_amount` succeeds,
returning the saturated value `U256::max_value()`. -/
theorem nonRefundableAmount_overflow_saturates :
    U256MOD ≤ U256MAX + 1 ∧ nonRefundableAmount 2 c6Db = .ok U256MAX := by
  constructor
  · have h0 : 0 < U256MOD := by unfold U256MOD; positivity
    unfold U256MAX
    omega
  · rfl

def c6PairRowA : MmProofRequest :=
  { id := 10, assigned := some 1, lastStatusUpdate := 0,
    payment := .ReadyToPay, amount := some U256MAX, hash := 0, publicKey := 2,
    payload := 0, signature := 0, requester := some 2, status := .Proven,
    rejectionMessage := none, operatorId := some 1, proof := none }

def c6PairRowB : MmProofRequest := { c6PairRowA with id := 11, amount := some 1 }

def c6PairDb : Db := { mmProofRequests := [c6PairRowA, c6PairRowB], mmOperators := [] }

def c6TripleRowA : MmProofRequest := { c6PairRowA with id := 20, amount := some 1 }

def c6TripleRowB : MmProofRequest :=
  { c6PairRowA with id := 21, amount := some (U256MAX - 1) }

def c6TripleRowC : MmProofRequest :=
  { c6PairRowA with id := 22, amount := some (U256MAX - 1) }

def c6TripleDb : Db :=
  { mmProofRequests := [c6TripleRowA, c6TripleRowB, c6TripleRowC],
    mmOperators := [] }

/-- Closed instance of the C6 theorem: the saturating success of
`non_refundable_amount` on the overflowing store; the grouping's hard error
when a row overflows against the first recorded amount of its pair
(`U256::max_value()` then `1`); and the undetected aggregate overflow — three
same-pair rows `1`, `MAX−1`, `MAX−1` whose total exceeds `2^256` still return
`Ok` with the first amount and all three ids. -/
theorem paymentAggregation_overflow_behavior_instance :
    nonRefundableAmount 2 c6Db =
      .ok (if ((nonRefundableRows 2 c6Db).map (fun a => a.getD 0)).sum < U256MOD
        then ((nonRefundableRows 2 c6Db).map (fun a => a.getD 0)).sum
        else U256MAX) ∧
    getReadyToPayProofRequestsForMany c6PairDb = .error "Overflow occured" ∧
    getReadyToPayProofRequestsForMany c6TripleDb =
      .ok ([(1, [(2, 1)])], [20, 21, 22]) :=
  ⟨paymentAggregation_overflow_behavior.1 2 c6Db,
   (paymentAggregation_overflow_behavior.2 c6PairDb "Overflow occured").mpr
     ⟨rfl, [(1, 2, U256MAX, 10)], 1, 2, 1, 11, [], U256MAX, rfl, rfl,
       by unfold U256MAX U256MOD; omega⟩,
   rfl⟩
